import Mathlib

/-
Verification development for the django-lang repository: a course-catalog
Django application with a translatable Course model (django-parler), a seed
management command, internationalized URL routing, and a single list view.

The embedding models:
  * the schema declared by migration 0003_auto_20210729_1801 (field
    declarations, the CourseTranslation side table, its unique_together
    constraint, and the nullable CASCADE foreign key `master`);
  * database states as lists of Course rows and CourseTranslation rows,
    with `create` (Course.objects.create through parler, which inserts one
    course row and one translation row in the active language) and cascade
    deletion;
  * the handle loop of the seed command (add_courses.py);
  * the URL configuration (django_lang/urls.py) with i18n_patterns and
    gettext_lazy marking;
  * the ListCourse view declaration (course/views.py) and the default
    ListView queryset semantics.

Decimal prices (DecimalField with decimal_places=2) are represented as
naturals counting hundredths: 30.00 is 3000. Dates are the literal strings
the source passes.
-/

/-- The on_delete behaviour declared on a foreign key. The migration only
uses CASCADE. -/
inductive OnDelete where
  | cascade
  deriving DecidableEq, Repr

/-- A field declaration as it appears in a migration or in the model
TranslatedFields: its name and the options the source sets. -/
structure FieldDecl where
  name : String
  null : Bool := false
  db_index : Bool := false
  max_length : Option Nat := none
  max_digits : Option Nat := none
  decimal_places : Option Nat := none
  fk_to : Option String := none
  on_delete : Option OnDelete := none
  deriving DecidableEq, Repr

/-- A schema-migration operation, as used by
course/migrations/0003_auto_20210729_1801.py. -/
inductive Operation where
  | removeField (model_name : String) (field_name : String)
  | createModel (name : String) (fields : List FieldDecl)
      (unique_together : List (List String))
  deriving DecidableEq, Repr

/-- The field list of the CreateModel CourseTranslation operation in
migration 0003. -/
def courseTranslationFields : List FieldDecl :=
  [ { name := "id" },
    { name := "language_code", db_index := true, max_length := some 15 },
    { name := "title", max_length := some 90 },
    { name := "description" },
    { name := "date" },
    { name := "price", max_digits := some 10, decimal_places := some 2 },
    { name := "master", null := true, on_delete := some OnDelete.cascade,
      fk_to := some "course.course" } ]

/-- The unique_together option of the CourseTranslation model in
migration 0003. -/
def courseTranslationUniqueTogether : List (List String) :=
  [["language_code", "master"]]

/-- The operations of migration 0003_auto_20210729_1801: remove the four
content fields from course, then create the CourseTranslation side table. -/
def migration0003ops : List Operation :=
  [ Operation.removeField "course" "date",
    Operation.removeField "course" "description",
    Operation.removeField "course" "price",
    Operation.removeField "course" "title",
    Operation.createModel "CourseTranslation" courseTranslationFields
      courseTranslationUniqueTogether ]

/-- The TranslatedFields declared on Course in course/models.py: title,
description, date, price with the options the source sets. -/
def courseTranslatedFields : List FieldDecl :=
  [ { name := "title", max_length := some 90 },
    { name := "description" },
    { name := "date" },
    { name := "price", max_digits := some 10, decimal_places := some 2 } ]

/-- A row of the course table after migration 0003: only the auto primary
key remains on the parent table. -/
structure CourseRow where
  id : Nat
  deriving DecidableEq, Repr

/-- A row of the course_course_translation side table: auto primary key,
language code, the four translated content fields, and the nullable
foreign key `master` to the parent course row. -/
structure TranslationRow where
  id : Nat
  language_code : String
  title : String
  description : String
  date : String
  price : Nat
  master : Option Nat
  deriving DecidableEq, Repr

/-- A database state: the two tables, plus the next auto-increment primary
key value for each. -/
structure DBState where
  courses : List CourseRow
  translations : List TranslationRow
  nextCourseId : Nat
  nextTranslationId : Nat
  deriving DecidableEq, Repr

/-- The predicate the unique_together (language_code, master)
constraint enforces on the side table: two rows agreeing on language code
and on a non-null master are the same row (SQL uniqueness constraints do
not compare NULL values, so rows with a null master are unconstrained). -/
def SatisfiesUniqueTogether (ts : List TranslationRow) : Prop :=
  ∀ t1 ∈ ts, ∀ t2 ∈ ts, ∀ m : Nat,
    t1.master = some m → t2.master = some m →
    t1.language_code = t2.language_code → t1 = t2

instance (ts : List TranslationRow) : Decidable (SatisfiesUniqueTogether ts) := by
  unfold SatisfiesUniqueTogether
  exact List.decidableBAll _ ts

/-- Cascade deletion of a course row, per the on_delete=CASCADE declared on
CourseTranslation.master in migration 0003: the course row goes away and so
does every translation row whose master references it. -/
def deleteCourse (db : DBState) (cid : Nat) : DBState :=
  { db with
    courses := db.courses.filter (fun c => c.id ≠ cid),
    translations := db.translations.filter (fun t => t.master ≠ some cid) }

/-- The values Course.objects.create is called with in the seed command:
title, description, date, price. -/
structure CourseData where
  title : String
  description : String
  date : String
  price : Nat
  deriving DecidableEq, Repr

/-- Course.objects.create on the parler-translatable Course model: insert a
new course row and one translation row in the active language carrying the
given field values, advancing both auto-increment counters. -/
def create (db : DBState) (lang : String) (d : CourseData) : DBState :=
  { courses := db.courses ++ [{ id := db.nextCourseId }],
    translations := db.translations ++
      [ { id := db.nextTranslationId, language_code := lang,
          title := d.title, description := d.description,
          date := d.date, price := d.price,
          master := some db.nextCourseId } ],
    nextCourseId := db.nextCourseId + 1,
    nextTranslationId := db.nextTranslationId + 1 }

/-- The literal arguments of the branch for loop index 0 in
add_courses.py. -/
def seed0 : CourseData :=
  { title := "Test-Driven Development with Python, Flask, and Docker",
    description := "In this course, you\x27ll learn how to set up a development environment with Docker in order to build and deploy a microservice powered by Python and Flask. You\x27ll also apply the practices of Test-Driven Development with pytest as you develop a RESTful API.",
    date := "2021-07-17",
    price := 3000 }

/-- The literal arguments of the branch for loop index 1. -/
def seed1 : CourseData :=
  { title := "Building Your Own Python Web Framework",
    description := "In this course, you\x27ll learn how to develop your own Python web framework to see how all the magic works beneath the scenes in Flask, Django, and the other Python-based web frameworks.",
    date := "2021-03-02",
    price := 2500 }

/-- The literal arguments of the branch for loop index 2. -/
def seed2 : CourseData :=
  { title := "Developing a Real-Time Taxi App with Django Channels and Angular",
    description := "Learn how to create a ride-sharing app with Django Channels, Angular, and Docker. Along the way, you\x27ll learn how to manage client/server communication with Django Channels, control flow and routing with Angular, and build a RESTful API with Django REST Framework.",
    date := "2020-12-17",
    price := 4000 }

/-- The literal arguments of the branch for loop index 3. -/
def seed3 : CourseData :=
  { title := "Learn Vue by Building and Deploying a CRUD App",
    description := "This course is focused on teaching the fundamentals of Vue by building and testing a web application using Test-Driven Development (TDD).",
    date := "2021-06-28",
    price := 4000 }

/-- The literal arguments of the final else branch (loop index 4). -/
def seed4 : CourseData :=
  { title := "The Definitive Guide to Celery and Django",
    description := "Learn how to add Celery to a Django application to provide asynchronous task processing.",
    date := "2021-04-05",
    price := 3000 }

/-- The handle method of the add_courses management command: a loop over
range(5) whose body is a five-branch conditional on the loop index, each
branch a Course.objects.create call with the fixed literal values seed0
through seed4. -/
def handle (lang : String) (db : DBState) : DBState :=
  (List.range 5).foldl (fun acc i =>
    if i = 0 then create acc lang seed0
    else if i = 1 then create acc lang seed1
    else if i = 2 then create acc lang seed2
    else if i = 3 then create acc lang seed3
    else create acc lang seed4) db

/-- The five CourseData values of the seed command branches, in branch
order (index 0 through 4). -/
def seedData : List CourseData :=
  [seed0, seed1, seed2, seed3, seed4]

/-- Project a translation row to the CourseData it stores. -/
def TranslationRow.data (t : TranslationRow) : CourseData :=
  { title := t.title, description := t.description,
    date := t.date, price := t.price }

/-- A route string in a path() call: a plain literal, or one marked for
translation with gettext_lazy. -/
inductive RouteStr where
  | plain (s : String)
  | translated (s : String)
  deriving DecidableEq, Repr

/-- What a path() call routes to in django_lang/urls.py: the admin site,
or an include() of another URL module. -/
inductive UrlTarget where
  | adminSiteUrls
  | includeModule (module : String)
  deriving DecidableEq, Repr

/-- A declared URL pattern: the route string, its target, and whether it is
served under a language-code prefix (set by i18n_patterns). -/
structure UrlPattern where
  route : RouteStr
  target : UrlTarget
  langPrefixed : Bool
  deriving DecidableEq, Repr

/-- django.urls.path applied to a route and a target; not yet wrapped, so
not language-prefixed. -/
def path (r : RouteStr) (t : UrlTarget) : UrlPattern :=
  { route := r, target := t, langPrefixed := false }

/-- django.conf.urls.i18n.i18n_patterns: every wrapped pattern is served
under a language-code URL prefix. -/
def i18n_patterns (ps : List UrlPattern) : List UrlPattern :=
  ps.map (fun p => { p with langPrefixed := true })

/-- The urlpatterns of django_lang/urls.py: admin (route marked with
gettext_lazy), rosetta, and the empty path including course.urls, all
wrapped in i18n_patterns. -/
def urlpatterns : List UrlPattern :=
  i18n_patterns
    [ path (RouteStr.translated "admin/") UrlTarget.adminSiteUrls,
      path (RouteStr.plain "rosetta/") (UrlTarget.includeModule "rosetta.urls"),
      path (RouteStr.plain "") (UrlTarget.includeModule "course.urls") ]

/-- A class-based list view declaration: the class attributes the source
may set (Django ListView defaults queryset and ordering to None), and
whether the class overrides get_queryset. -/
structure ViewClassDecl where
  className : String
  model : String
  template_name : String
  context_object_name : String
  queryset : Option (List CourseRow)
  ordering : Option (List String)
  overridesGetQueryset : Bool
  deriving DecidableEq, Repr

/-- The ListCourse view of course/views.py: a ListView over Course with
template index.html and context object name courses; it sets nothing
else. -/
def ListCourse : ViewClassDecl :=
  { className := "ListCourse", model := "Course",
    template_name := "index.html", context_object_name := "courses",
    queryset := none, ordering := none, overridesGetQueryset := false }

/-- The view classes defined by course/views.py. -/
def viewsPyClasses : List ViewClassDecl :=
  [ListCourse]

/-- Django ListView.get_queryset for a view that does not override it:
with queryset = None it returns all objects of the model (the Course
table), with no filtering; ordering = None applies no reordering. -/
def listViewQueryset (v : ViewClassDecl) (db : DBState) : List CourseRow :=
  match v.queryset with
  | some qs => qs
  | none => db.courses

/-- The object_list context variable the view hands the template under its
context_object_name: the unmodified queryset. -/
def listViewContext (v : ViewClassDecl) (db : DBState) : List CourseRow :=
  listViewQueryset v db

/-- Resolution of a translated attribute on a course instance: the value
stored in the translation row for the course in the active language
(the parler lookup on the side table). -/
def courseTitle (db : DBState) (lang : String) (cid : Nat) : Option String :=
  (db.translations.find? (fun t => t.master = some cid && t.language_code = lang)).map
    (fun t => t.title)

/-- Course.__str__ as written in course/models.py: it returns self.title,
the title translation resolved in the active language. -/
def courseStr (db : DBState) (lang : String) (cid : Nat) : Option String :=
  courseTitle db lang cid

/-- Modelled from the spec: the index.html template of the repository (not
among the provided source files) renders, for each course in the courses
context, the title of that course. The rendered list is therefore the titles of
the courses of the context, in order. -/
def renderedTitles (db : DBState) (lang : String) : List String :=
  (listViewContext ListCourse db).filterMap (fun c => courseTitle db lang c.id)

/-- The translation row inserted by create for given ids, language and
field values. -/
def seedRow (lang : String) (tid : Nat) (cid : Nat) (d : CourseData) : TranslationRow :=
  { id := tid, language_code := lang, title := d.title,
    description := d.description, date := d.date, price := d.price,
    master := some cid }

/-- A concrete database state used to instantiate the universally
quantified theorems below: one course with one English translation. -/
def sampleDB : DBState :=
  { courses := [{ id := 1 }],
    translations :=
      [ { id := 1, language_code := "en", title := "T", description := "D",
          date := "2021-01-01", price := 100, master := some 1 } ],
    nextCourseId := 2,
    nextTranslationId := 2 }

/-- Running the seed command appends exactly five course rows (with the
next five primary keys) and the five matching translation rows, in branch
order, and leaves everything else as an append. -/
theorem handle_run (lang : String) (db : DBState) :
    handle lang db =
      { courses := db.courses ++
          [ { id := db.nextCourseId }, { id := db.nextCourseId + 1 },
            { id := db.nextCourseId + 2 }, { id := db.nextCourseId + 3 },
            { id := db.nextCourseId + 4 } ],
        translations := db.translations ++
          [ seedRow lang db.nextTranslationId db.nextCourseId seed0,
            seedRow lang (db.nextTranslationId + 1) (db.nextCourseId + 1) seed1,
            seedRow lang (db.nextTranslationId + 2) (db.nextCourseId + 2) seed2,
            seedRow lang (db.nextTranslationId + 3) (db.nextCourseId + 3) seed3,
            seedRow lang (db.nextTranslationId + 4) (db.nextCourseId + 4) seed4 ],
        nextCourseId := db.nextCourseId + 5,
        nextTranslationId := db.nextTranslationId + 5 } := by
  simp [handle, create, seedRow, List.range_succ]

/-- A database state in which a translation row has no master: the
declaration null=True permits it. -/
def orphanDB : DBState :=
  { courses := [],
    translations :=
      [ { id := 1, language_code := "en", title := "T", description := "D",
          date := "2021-01-01", price := 100, master := none } ],
    nextCourseId := 1,
    nextTranslationId := 2 }

/-- In a duplicate-free list in which any two elements satisfying p are
equal, at most one element satisfies p. -/
theorem filter_length_le_one_of_all_eq {α : Type} (l : List α) (p : α → Bool)
    (hnd : l.Nodup)
    (h : ∀ a ∈ l, ∀ b ∈ l, p a = true → p b = true → a = b) :
    (l.filter p).length ≤ 1 := by
  rcases hf : l.filter p with _ | ⟨a, _ | ⟨b, rest⟩⟩
  · simp
  · simp
  · exfalso
    have hnd2 : (l.filter p).Nodup := hnd.filter p
    rw [hf] at hnd2
    have ha : a ∈ l.filter p := by
      rw [hf]; exact List.mem_cons_self _ _
    have hb : b ∈ l.filter p := by
      rw [hf]; exact List.mem_cons_of_mem _ (List.mem_cons_self _ _)
    have hab : a = b :=
      h a (List.mem_of_mem_filter ha) b (List.mem_of_mem_filter hb)
        (List.of_mem_filter ha) (List.of_mem_filter hb)
    have hne : a ≠ b := by
      have hc := List.nodup_cons.mp hnd2
      exact fun e => hc.1 (e ▸ List.mem_cons_self _ _)
    exact hne hab

/-- C1: every invocation of the handle operation of the seed command creates
exactly five Course records, one per loop index 0..4 through the
five-branch conditional, carrying the fixed titles, descriptions, dates
and prices written in the branches, in branch order; in particular the
five titles and prices are the ones listed (prices in hundredths: 30.00 is
3000). -/
theorem handle_creates_exactly_five_fixed_courses (lang : String) (db : DBState) :
    (handle lang db).courses.length = db.courses.length + 5 ∧
    ((handle lang db).translations.drop db.translations.length).map
        TranslationRow.data = seedData ∧
    seedData.map (fun d => (d.title, d.price)) =
      [ ("Test-Driven Development with Python, Flask, and Docker", 3000),
        ("Building Your Own Python Web Framework", 2500),
        ("Developing a Real-Time Taxi App with Django Channels and Angular", 4000),
        ("Learn Vue by Building and Deploying a CRUD App", 4000),
        ("The Definitive Guide to Celery and Django", 3000) ] := by
  refine ⟨?_, ?_, rfl⟩
  · rw [handle_run]; simp
  · rw [handle_run]
    rw [List.drop_left]
    rfl

/-- C9: the seed command only appends: the rows present before an
invocation are an unchanged prefix of the rows after it, the course count
grows by exactly five, and n invocations yield 5*n seeded courses (so the
command is not idempotent). -/
theorem handle_only_appends_and_is_not_idempotent (lang : String) (db : DBState) :
    (handle lang db).courses.take db.courses.length = db.courses ∧
    (handle lang db).translations.take db.translations.length = db.translations ∧
    (handle lang db).courses.length = db.courses.length + 5 ∧
    ∀ n : Nat, ((handle lang)^[n] db).courses.length = db.courses.length + 5 * n := by
  refine ⟨?_, ?_, ?_, ?_⟩
  · rw [handle_run]; exact List.take_left _ _
  · rw [handle_run]; exact List.take_left _ _
  · rw [handle_run]; simp
  · intro n
    induction n with
    | zero => simp
    | succ k ih =>
      rw [Function.iterate_succ_apply', handle_run]
      simp only [List.length_append, ih, List.length_cons, List.length_nil]
      omega

/-- C2: migration 0003 declares the unique_together (language_code,
master) constraint on CourseTranslation, and any duplicate-free table
state satisfying the constraint has at most one translation row per
(course, language) pair. -/
theorem courseTranslation_unique_per_pair :
    (Operation.createModel "CourseTranslation" courseTranslationFields
        [["language_code", "master"]] ∈ migration0003ops) ∧
    (∀ db : DBState, db.translations.Nodup →
      SatisfiesUniqueTogether db.translations →
      ∀ m : Nat, ∀ lang : String,
        (db.translations.filter
            (fun t => t.master == some m && t.language_code == lang)).length ≤ 1) := by
  constructor
  · decide
  · intro db hnd hs m lang
    apply filter_length_le_one_of_all_eq _ _ hnd
    intro a ha b hb hpa hpb
    simp only [Bool.and_eq_true, beq_iff_eq] at hpa hpb
    exact hs a ha b hb m hpa.1 hpb.1 (hpa.2.trans hpb.2.symm)

/-- Witness for C2 at a concrete one-course database state. -/
theorem courseTranslation_unique_per_pair_witness :
    sampleDB.translations.Nodup ∧
    SatisfiesUniqueTogether sampleDB.translations ∧
    (sampleDB.translations.filter
        (fun t => t.master == some 1 && t.language_code == "en")).length ≤ 1 :=
  ⟨by decide, by decide,
    courseTranslation_unique_per_pair.2 sampleDB (by decide) (by decide) 1 "en"⟩

/-- C3: the translatable attributes of Course are exactly title,
description, date, price; migration 0003 removes exactly these four from
the course table and creates the CourseTranslation side table whose
columns are the auto id, language_code, the four content fields, and the
foreign key master back to course.course. -/
theorem translatable_fields_stored_in_side_table :
    courseTranslatedFields.map FieldDecl.name =
      ["title", "description", "date", "price"] ∧
    migration0003ops.filter
        (fun op => match op with
          | Operation.removeField _ _ => true
          | _ => false) =
      [ Operation.removeField "course" "date",
        Operation.removeField "course" "description",
        Operation.removeField "course" "price",
        Operation.removeField "course" "title" ] ∧
    courseTranslationFields.map FieldDecl.name =
      ["id", "language_code", "title", "description", "date", "price", "master"] ∧
    (courseTranslationFields.filter (fun f => f.name == "master")).map
        FieldDecl.fk_to = [some "course.course"] ∧
    Operation.createModel "CourseTranslation" courseTranslationFields
      courseTranslationUniqueTogether ∈ migration0003ops :=
  ⟨rfl, rfl, rfl, rfl, by decide⟩

/-- C4: the URL configuration declares exactly three routes, all in the
one i18n_patterns namespace: the admin path, the rosetta path, and the
empty path including course.urls. -/
theorem urlpatterns_exactly_three_routes :
    urlpatterns =
      [ { route := RouteStr.translated "admin/",
          target := UrlTarget.adminSiteUrls, langPrefixed := true },
        { route := RouteStr.plain "rosetta/",
          target := UrlTarget.includeModule "rosetta.urls", langPrefixed := true },
        { route := RouteStr.plain "",
          target := UrlTarget.includeModule "course.urls", langPrefixed := true } ] ∧
    urlpatterns.length = 3 :=
  ⟨rfl, rfl⟩

/-- C5: every declared route is wrapped in i18n_patterns and hence served
under a language-code prefix, and the admin route string is the one marked
for translation with gettext_lazy. -/
theorem urlpatterns_all_language_prefixed_admin_translated :
    urlpatterns.all (fun p => p.langPrefixed) = true ∧
    (urlpatterns.filter (fun p => p.target == UrlTarget.adminSiteUrls)).map
        UrlPattern.route = [RouteStr.translated "admin/"] :=
  ⟨rfl, rfl⟩

/-- C6: course/views.py defines exactly one view class, ListCourse: a
ListView over Course rendering index.html with context object name
courses, with no queryset, ordering or get_queryset override, so its
queryset is the framework default (all Course rows, unfiltered). -/
theorem single_list_view_over_course :
    viewsPyClasses = [ListCourse] ∧
    viewsPyClasses.length = 1 ∧
    ListCourse.model = "Course" ∧
    ListCourse.template_name = "index.html" ∧
    ListCourse.context_object_name = "courses" ∧
    ListCourse.queryset = none ∧
    ListCourse.ordering = none ∧
    ListCourse.overridesGetQueryset = false ∧
    ∀ db : DBState, listViewQueryset ListCourse db = db.courses :=
  ⟨rfl, rfl, rfl, rfl, rfl, rfl, rfl, rfl, fun _ => rfl⟩

/-- C7: every Course row is in the courses context of the list view (the view
imposes no filter), and a course whose title resolves in the active
language has that title in the rendered list. -/
theorem created_course_title_rendered (db : DBState) (lang : String)
    (c : CourseRow) (t : String)
    (hc : c ∈ db.courses)
    (ht : courseTitle db lang c.id = some t) :
    c ∈ listViewContext ListCourse db ∧ t ∈ renderedTitles db lang := by
  constructor
  · exact hc
  · exact List.mem_filterMap.mpr ⟨c, hc, ht⟩

/-- Witness for C7 at a concrete one-course database state. -/
theorem created_course_title_rendered_witness :
    ({ id := 1 } : CourseRow) ∈ sampleDB.courses ∧
    courseTitle sampleDB "en" 1 = some "T" ∧
    (({ id := 1 } : CourseRow) ∈ listViewContext ListCourse sampleDB ∧
      "T" ∈ renderedTitles sampleDB "en") :=
  ⟨by decide, by decide,
    created_course_title_rendered sampleDB "en" { id := 1 } "T"
      (by decide) (by decide)⟩

/-- C8: Course.__str__ returns exactly the title attribute of the course, the
title translation resolved in the active language. -/
theorem courseStr_returns_title (db : DBState) (lang : String) (cid : Nat) :
    courseStr db lang cid = courseTitle db lang cid :=
  rfl

/-- C10: the master foreign key is declared nullable with
on_delete=CASCADE; a constraint-satisfying state may hold a translation
row with no master; and cascade-deleting a course removes every
translation row whose master references it, leaving none that reference
the deleted course. -/
theorem master_nullable_and_cascade_delete :
    (courseTranslationFields.filter (fun f => f.name == "master")).map
        (fun f => (f.null, f.on_delete)) = [(true, some OnDelete.cascade)] ∧
    (orphanDB.translations.Nodup ∧
      SatisfiesUniqueTogether orphanDB.translations ∧
      ∃ t ∈ orphanDB.translations, t.master = none) ∧
    (∀ db : DBState, ∀ cid : Nat, ∀ t ∈ db.translations,
      t.master = some cid → t ∉ (deleteCourse db cid).translations) ∧
    (∀ db : DBState, ∀ cid : Nat, ∀ t ∈ (deleteCourse db cid).translations,
      t.master ≠ some cid) := by
  refine ⟨rfl, by decide, ?_, ?_⟩
  · intro db cid t ht hm hmem
    have hp := (List.mem_filter.mp hmem).2
    simp [deleteCourse, hm] at hp
  · intro db cid t ht
    have hp := (List.mem_filter.mp ht).2
    simpa using hp

/-- Witness for C10: deleting course 1 from the sample state removes its
translation row. -/
theorem master_nullable_and_cascade_delete_witness :
    ({ id := 1, language_code := "en", title := "T", description := "D",
        date := "2021-01-01", price := 100,
        master := some 1 } : TranslationRow) ∈ sampleDB.translations ∧
    ({ id := 1, language_code := "en", title := "T", description := "D",
        date := "2021-01-01", price := 100,
        master := some 1 } : TranslationRow) ∉
      (deleteCourse sampleDB 1).translations :=
  ⟨by decide,
    master_nullable_and_cascade_delete.2.2.1 sampleDB 1 _ (by decide) rfl⟩
